import Mathlib

/-!
Verification development for the `04-app` component of the practicum
repository: a chat front-end over a pre-computed sensor-anomaly store.
The three source files are embedded shallowly:

* `utils.py` — five tool functions issuing SQL SELECT statements against a
  SQLite store and two matplotlib plotting helpers;
* `llm.py`  — the RAG + tool-calling orchestration graph
  (retrieve → assistant → conditional tools loop);
* `app.py`  — the per-turn UI loop consuming the event stream and surfacing
  at most one image per turn.

Timestamps are TEXT columns compared with SQLite's default BINARY collation
(bytewise memcmp); the embedding therefore carries its own executable
lexicographic comparison on the underlying character lists.
-/

namespace Practicum

/-! ### SQLite BINARY text collation -/

/-- Bytewise (code-point-wise) strict comparison of character lists: the
SQLite BINARY collation used for all TEXT comparisons in the app's SQL.
For the pure-ASCII `YYYY-MM-DD HH:MM:SS` timestamps of this schema this
coincides with chronological order. -/
def textLtChars : List Char → List Char → Bool
  | _, [] => false
  | [], _ :: _ => true
  | a :: as, b :: bs =>
    if a.toNat < b.toNat then true
    else if b.toNat < a.toNat then false
    else textLtChars as bs

/-- Strict TEXT comparison on strings (SQLite `<` on TEXT affinity). -/
def textLt (a b : String) : Bool := textLtChars a.data b.data

/-- Non-strict TEXT comparison (SQLite `<=` on TEXT affinity). -/
def textLe (a b : String) : Bool := !(textLt b a)

theorem textLtChars_asymm : ∀ as bs, textLtChars as bs = true → textLtChars bs as = false := by
  intro as
  induction as with
  | nil =>
    intro bs h
    cases bs with
    | nil => simp [textLtChars] at h
    | cons b bs => simp [textLtChars]
  | cons a as ih =>
    intro bs h
    cases bs with
    | nil => simp [textLtChars] at h
    | cons b bs =>
      simp only [textLtChars] at h ⊢
      split_ifs at h ⊢ <;> first | rfl | exact ih bs h | omega

theorem textLtChars_neg_trans :
    ∀ cs bs as, textLtChars bs as = false → textLtChars cs bs = false →
      textLtChars cs as = false := by
  intro cs
  induction cs with
  | nil =>
    intro bs as h1 h2
    cases bs with
    | nil =>
      cases as with
      | nil => simp [textLtChars]
      | cons a as => simp [textLtChars] at h1
    | cons b bs => simp [textLtChars] at h2
  | cons c cs ih =>
    intro bs as h1 h2
    cases as with
    | nil => simp [textLtChars]
    | cons a as =>
      cases bs with
      | nil => simp [textLtChars] at h1
      | cons b bs =>
        simp only [textLtChars] at h1 h2 ⊢
        split_ifs at h1 h2 ⊢ <;> first | rfl | (exact ih bs as h1 h2) | omega

theorem textLe_total (a b : String) : textLe a b = true ∨ textLe b a = true := by
  by_cases h : textLt b a = true
  · exact Or.inr (by simp [textLe, textLt, textLtChars_asymm _ _ h])
  · exact Or.inl (by simp [textLe]; exact Bool.eq_false_iff.mpr h)

theorem textLe_trans {a b c : String} (h1 : textLe a b = true) (h2 : textLe b c = true) :
    textLe a c = true := by
  simp only [textLe, Bool.not_eq_true', Bool.not_eq_true] at h1 h2 ⊢
  exact textLtChars_neg_trans c.data b.data a.data h1 h2

/-! ### Table `anomalies_consolidated` and `query_anomalies` (utils.py 13-47) -/

/-- One row of the `anomalies_consolidated` table. -/
structure AnomalyRow where
  event_id : Int
  start_ts : String
  end_ts : String
  event_duration_in_secs : Int
deriving Repr, DecidableEq

/-- The projected/aliased record shape produced by the SELECT of
`query_anomalies`: `start_ts as anomaly_start_ts`, `end_ts as anomaly_end_ts`. -/
structure AnomalyRecord where
  event_id : Int
  anomaly_start_ts : String
  anomaly_end_ts : String
  event_duration_in_secs : Int
deriving Repr, DecidableEq

/-- Column aliasing of the SELECT list in `query_anomalies`. -/
def toAnomalyRecord (r : AnomalyRow) : AnomalyRecord :=
  ⟨r.event_id, r.start_ts, r.end_ts, r.event_duration_in_secs⟩

/-- The WHERE clause of `query_anomalies` (utils.py 38-43):
`event_duration_in_secs > 60*5 and ((start <= start_ts and start_ts <= end) or
(start <= end_ts and end_ts <= end))`. -/
def anomalyWhere (start_ts end_ts : String) (r : AnomalyRow) : Bool :=
  decide (60 * 5 < r.event_duration_in_secs) &&
    ((textLe start_ts r.start_ts && textLe r.start_ts end_ts) ||
     (textLe start_ts r.end_ts && textLe r.end_ts end_ts))

/-- The `order by anomaly_start_ts asc` relation of `query_anomalies`. -/
def recLe (a b : AnomalyRecord) : Prop :=
  textLe a.anomaly_start_ts b.anomaly_start_ts = true

instance : DecidableRel recLe :=
  fun a b => inferInstanceAs (Decidable (textLe a.anomaly_start_ts b.anomaly_start_ts = true))

instance : IsTotal AnomalyRecord recLe :=
  ⟨fun a b => textLe_total a.anomaly_start_ts b.anomaly_start_ts⟩

instance : IsTrans AnomalyRecord recLe :=
  ⟨fun _ _ _ hab hbc => textLe_trans hab hbc⟩

/-- Embeds `query_anomalies` (utils.py 13-47): a single SELECT over
`anomalies_consolidated` filtering by `anomalyWhere`, projecting through
`toAnomalyRecord`, ordered ascending by `anomaly_start_ts`. The store
connection is modelled by passing the table contents explicitly. -/
def query_anomalies (start_ts end_ts : String) (anomalies_consolidated : List AnomalyRow) :
    List AnomalyRecord :=
  ((anomalies_consolidated.filter (anomalyWhere start_ts end_ts)).map toAnomalyRecord).insertionSort recLe

/-- Membership characterisation of the query result (shared helper). -/
theorem mem_query_anomalies {s e : String} {db : List AnomalyRow} {rec : AnomalyRecord} :
    rec ∈ query_anomalies s e db ↔
      ∃ row, row ∈ db ∧ anomalyWhere s e row = true ∧ toAnomalyRecord row = rec := by
  simp [query_anomalies, List.mem_filter, and_assoc]

/-- Demo row: a 400-second anomaly starting 2022-02-10 13:00:00. -/
def anomRow400 : AnomalyRow := ⟨101, "2022-02-10 13:00:00", "2022-02-10 13:06:40", 400⟩

/-- Demo row: a 200-second anomaly in the same window. -/
def anomRow200 : AnomalyRow := ⟨102, "2022-02-10 08:00:00", "2022-02-10 08:03:20", 200⟩

/-! ### Aggregate queries (utils.py 50-84 and 87-119) -/

/-- SQL `SUM(col)` semantics over a row set: the columns of this schema are
non-NULL, so the sum is NULL exactly when no row matches the WHERE clause,
and the plain sum otherwise. -/
def sqlSum {α : Type} (col : α → Int) (rows : List α) : Option Int :=
  if rows.isEmpty then none else some ((rows.map col).sum)

/-- The shared WHERE clause `'{start_ts}' <= ts and ts <= '{end_ts}'` of the
aggregate and plot queries, with `tsOf` projecting the row's `ts` column. -/
def whereTsBetween {α : Type} (tsOf : α → String) (start_ts end_ts : String)
    (rows : List α) : List α :=
  rows.filter fun r => textLe start_ts (tsOf r) && textLe (tsOf r) end_ts

/-- One row of the `results_agg` table: per-timestamp out-of-range indicator
(`*_pred`, 0 or 1) for each of the 8 analog sensors. -/
structure ResultsAggRow where
  ts : String
  tp2_pred : Int
  tp3_pred : Int
  h1_pred : Int
  dv_pressure_pred : Int
  reservoirs_pred : Int
  oil_temperature_pred : Int
  flowmeter_pred : Int
  motor_current_pred : Int
deriving Repr, DecidableEq

/-- The SELECT-list aliases of `query_analog_sensor_importances` (utils.py
72-80): each aggregate is aliased back to the `_pred` column name, e.g.
`sum(tp2_pred) as tp2_pred`. -/
def analogPredColumns : List String :=
  ["tp2_pred", "tp3_pred", "h1_pred", "dv_pressure_pred",
   "reservoirs_pred", "oil_temperature_pred", "flowmeter_pred", "motor_current_pred"]

/-- The 8 analog-sensor names as the spec lists them (without `_pred`). -/
def analogSensorNames : List String :=
  ["tp2", "tp3", "h1", "dv_pressure", "reservoirs",
   "oil_temperature", "flowmeter", "motor_current"]

/-- Column projection for each aliased column of the analog-importances
SELECT list. -/
def analogColumnOf : String → ResultsAggRow → Int
  | "tp2_pred" => fun r => r.tp2_pred
  | "tp3_pred" => fun r => r.tp3_pred
  | "h1_pred" => fun r => r.h1_pred
  | "dv_pressure_pred" => fun r => r.dv_pressure_pred
  | "reservoirs_pred" => fun r => r.reservoirs_pred
  | "oil_temperature_pred" => fun r => r.oil_temperature_pred
  | "flowmeter_pred" => fun r => r.flowmeter_pred
  | "motor_current_pred" => fun r => r.motor_current_pred
  | _ => fun _ => 0

/-- The single aggregate output row of the analog-importances SELECT, as the
key/value mapping `df.to_dict(orient='records')[0]` produces (keys in SELECT
order). -/
def analogSumRow (rows : List ResultsAggRow) : List (String × Option Int) :=
  [("tp2_pred", sqlSum (fun r => r.tp2_pred) rows),
   ("tp3_pred", sqlSum (fun r => r.tp3_pred) rows),
   ("h1_pred", sqlSum (fun r => r.h1_pred) rows),
   ("dv_pressure_pred", sqlSum (fun r => r.dv_pressure_pred) rows),
   ("reservoirs_pred", sqlSum (fun r => r.reservoirs_pred) rows),
   ("oil_temperature_pred", sqlSum (fun r => r.oil_temperature_pred) rows),
   ("flowmeter_pred", sqlSum (fun r => r.flowmeter_pred) rows),
   ("motor_current_pred", sqlSum (fun r => r.motor_current_pred) rows)]

/-- Embeds `query_analog_sensor_importances` (utils.py 50-84): an aggregate
SELECT over `results_agg` restricted to the window, returned as the mapping of
the single result row. -/
def query_analog_sensor_importances (start_ts end_ts : String)
    (results_agg : List ResultsAggRow) : List (String × Option Int) :=
  analogSumRow (whereTsBetween (fun r => r.ts) start_ts end_ts results_agg)

/-- One row of the `train_data` table (digital sensors; 0/1 activations). -/
structure TrainDataRow where
  ts : String
  comp : Int
  dv_electric : Int
  towers : Int
  mpg : Int
  lps : Int
  pressure_switch : Int
  oil_level : Int
  caudal_impulses : Int
deriving Repr, DecidableEq

/-- The single aggregate output row of the digital-activations SELECT
(utils.py 106-118), keys in SELECT order. -/
def digitalSumRow (rows : List TrainDataRow) : List (String × Option Int) :=
  [("comp", sqlSum (fun r => r.comp) rows),
   ("dv_electric", sqlSum (fun r => r.dv_electric) rows),
   ("towers", sqlSum (fun r => r.towers) rows),
   ("mpg", sqlSum (fun r => r.mpg) rows),
   ("lps", sqlSum (fun r => r.lps) rows),
   ("pressure_switch", sqlSum (fun r => r.pressure_switch) rows),
   ("oil_level", sqlSum (fun r => r.oil_level) rows),
   ("caudal_impulses", sqlSum (fun r => r.caudal_impulses) rows)]

/-- Embeds `query_digital_sensor_activations` (utils.py 87-119). -/
def query_digital_sensor_activations (start_ts end_ts : String)
    (train_data : List TrainDataRow) : List (String × Option Int) :=
  digitalSumRow (whereTsBetween (fun r => r.ts) start_ts end_ts train_data)

/-! ### The store and the tool-call boundary -/

/-- The relational store as the query tools see it. -/
structure Store where
  anomalies_consolidated : List AnomalyRow
  results_agg : List ResultsAggRow
  train_data : List TrainDataRow
deriving Repr, DecidableEq

/-- What a tool call surfaces to the model: either the tool's return value or
an error text. -/
inductive ToolOutcome (α : Type) where
  | result (val : α)
  | errorText (msg : String)
deriving Repr, DecidableEq

/-- The tool-call boundary for `query_anomalies`: for well-formed timestamp
strings the body is a single SELECT whose TEXT comparisons always evaluate,
so the call always returns normally (no exception path). -/
def query_anomalies_tool (start_ts end_ts : String) (db : Store) :
    ToolOutcome (List AnomalyRecord) :=
  ToolOutcome.result (query_anomalies start_ts end_ts db.anomalies_consolidated)

/-- The tool-call boundary for `query_analog_sensor_importances`. -/
def query_analog_sensor_importances_tool (start_ts end_ts : String) (db : Store) :
    ToolOutcome (List (String × Option Int)) :=
  ToolOutcome.result (query_analog_sensor_importances start_ts end_ts db.results_agg)

/-- The tool-call boundary for `query_digital_sensor_activations`. -/
def query_digital_sensor_activations_tool (start_ts end_ts : String) (db : Store) :
    ToolOutcome (List (String × Option Int)) :=
  ToolOutcome.result (query_digital_sensor_activations start_ts end_ts db.train_data)

/-- The observable effect of one `query_analog_sensor_importances` call on the
store: the body is SELECT-only (utils.py 70-83 issues no INSERT/UPDATE/DELETE),
so the store is returned unchanged alongside the result. -/
def run_query_analog_sensor_importances (start_ts end_ts : String) (db : Store) :
    List (String × Option Int) × Store :=
  (query_analog_sensor_importances start_ts end_ts db.results_agg, db)

/-- The spec's valid input range: `start_ts` must be between 2022-01-01 and
2022-06-02 (utils.py docstrings; llm.py system message). -/
def outsideValidRange (ts : String) : Prop :=
  textLt ts "2022-01-01" = true ∨ textLt "2022-06-02" ts = true

/-! ### Plot tools (utils.py 122-208 and 211-287) -/

/-- One row of the `train_data_processed` table: the per-second sensor value
columns are kept as a name-indexed association list so that the SQL's
`t.{sensor_name}` column selection stays by-name. -/
structure TrainDataProcessedRow where
  ts : String
  sensorColumns : List (String × Int)
  pred_filtered : Int
deriving Repr, DecidableEq

/-- One row of the `results` table: per-timestamp, per-sensor forecast band;
`(ts, sensor)` is its key. -/
structure ResultsRow where
  ts : String
  sensor : String
  yhat_lower_with_buffer : Int
  yhat_upper_with_buffer : Int
deriving Repr, DecidableEq

/-- One row of the data frame built by the analog-plot SELECT (utils.py
149-162): the left join keeps every `train_data_processed` row of the window
and attaches the forecast band when `results` has a row keyed by the same
`(ts, sensor)`, NULL otherwise. -/
structure PlotFrameRow where
  ts : String
  sensorValue : Option Int
  pred_filtered : Int
  yhat_lower_with_buffer : Option Int
  yhat_upper_with_buffer : Option Int
deriving Repr, DecidableEq

/-- The `left join results` of the analog-plot SELECT, for one train row. -/
def leftJoinResults (results : List ResultsRow) (sensor_name : String)
    (t : TrainDataProcessedRow) : PlotFrameRow :=
  match results.find? (fun r => decide (r.ts = t.ts) && decide (r.sensor = sensor_name)) with
  | some r => ⟨t.ts, t.sensorColumns.lookup sensor_name, t.pred_filtered,
               some r.yhat_lower_with_buffer, some r.yhat_upper_with_buffer⟩
  | none => ⟨t.ts, t.sensorColumns.lookup sensor_name, t.pred_filtered, none, none⟩

/-- pandas `DataFrame.plot` raises `TypeError: no numeric data to plot` when
invoked on a frame with no rows; neither plot helper in utils.py guards
against an empty window, so the exception is what an empty result set
produces. Modelled as the error case of `Except`. -/
def dataframePlot {α : Type} (rows : List α) : Except String Unit :=
  if rows.isEmpty then Except.error "TypeError: no numeric data to plot" else Except.ok ()

/-- Embeds `update_analog_sensor_plot_for_user` (utils.py 122-208): SELECT the
window with the forecast-band join, plot it (raising on an empty frame), save
under a fresh name and return the image path. The uuid4 file stem is passed in
as `imgStem`. -/
def update_analog_sensor_plot_for_user (sensor_name start_ts end_ts : String)
    (train_data_processed : List TrainDataProcessedRow) (results : List ResultsRow)
    (imgStem : String) : Except String String :=
  let df := (whereTsBetween (fun t => t.ts) start_ts end_ts train_data_processed).map
    (leftJoinResults results sensor_name)
  match dataframePlot df with
  | Except.error msg => Except.error msg
  | Except.ok _ => Except.ok ("./imgs/" ++ imgStem ++ ".png")

/-- Embeds `update_digital_sensor_plot_for_user` (utils.py 211-287): same
shape without the forecast-band join. -/
def update_digital_sensor_plot_for_user (sensor_name start_ts end_ts : String)
    (train_data_processed : List TrainDataProcessedRow)
    (imgStem : String) : Except String String :=
  let df := (whereTsBetween (fun t => t.ts) start_ts end_ts train_data_processed).map
    (fun t => (t.ts, t.sensorColumns.lookup sensor_name, t.pred_filtered))
  match dataframePlot df with
  | Except.error msg => Except.error msg
  | Except.ok _ => Except.ok ("./imgs/" ++ imgStem ++ ".png")

/-! ### RAG component (llm.py 75-95) -/

/-- A retrieved context document (langchain `Document`). -/
structure Document where
  page_content : String
deriving Repr, DecidableEq

/-- The latest user message (langchain `HumanMessage`). -/
structure HumanMessage where
  id : String
  content : String
deriving Repr, DecidableEq

/-- Embeds `_write_context_to_file` (llm.py 75-81), named without the leading
underscore. The sample line reads `context[0].page_content`; Python list
indexing on an empty list raises `IndexError`, so the audit write fails
whenever zero documents were retrieved. The produced log lines are returned
in place of the file side effect. -/
def write_context_to_file (message : HumanMessage) (context : List Document) :
    Except String (List String) :=
  match context with
  | [] => Except.error "IndexError: list index out of range"
  | d :: ds =>
    Except.ok ["Prompt ID: " ++ message.id,
               "Prompt: " ++ message.content,
               "Retrieved: " ++ toString (d :: ds).length ++ ", Sample (Top-1):",
               d.page_content]

/-- Embeds `retrieve` (llm.py 88-95). The similarity search is an external
call, modelled by passing its result `retrieved_docs` in; the audit write runs
before the context is returned, so its IndexError aborts the step. -/
def retrieve (lastMessage : HumanMessage) (retrieved_docs : List Document) :
    Except String (List Document) :=
  match write_context_to_file lastMessage retrieved_docs with
  | Except.error e => Except.error e
  | Except.ok _ => Except.ok retrieved_docs

/-! ### Orchestration graph (llm.py 106-122) -/

/-- A tool-call request carried by an assistant message. -/
structure ToolCall where
  name : String
  callId : String
deriving Repr, DecidableEq

/-- An assistant message (langchain `AIMessage`): text plus tool-call
requests. -/
structure AIMessage where
  content : String
  tool_calls : List ToolCall
deriving Repr, DecidableEq

/-- Where the conditional edge after `assistant` goes. -/
inductive RouteTarget where
  | tools
  | done
deriving Repr, DecidableEq

/-- Modelled from the spec: `tools_condition` is imported from the third-party
orchestration framework (`langgraph.prebuilt`), not defined in this
repository. The spec describes it as a pure function of the latest assistant
message: tool-call requests present routes to tool execution, absent routes to
the terminal state. -/
def tools_condition (aiMessages : List AIMessage) : RouteTarget :=
  match aiMessages.getLast? with
  | some m => if m.tool_calls.isEmpty then RouteTarget.done else RouteTarget.tools
  | none => RouteTarget.done

/-- The graph's nodes as wired in llm.py 106-122 (START enters `retrieve`). -/
inductive GraphNode where
  | retrieveNode
  | assistantNode
  | toolsNode
  | doneNode
deriving Repr, DecidableEq

/-- The orchestrator's per-turn state: current node, assistant messages so
far, number of model invocations, number of completed tool rounds. -/
structure OrchState where
  node : GraphNode
  aiMessages : List AIMessage
  generateSteps : Nat
  toolRounds : Nat
deriving Repr, DecidableEq

/-- One step of the compiled graph, per the edges of llm.py 112-118:
`retrieve → assistant`, conditional edges from `assistant` through
`tools_condition`, `tools → assistant`. The language model is an oracle
`model` mapping the invocation index to the assistant message it produces
(execution semantics of the framework modelled from the spec's state
machine). -/
def orchStep (model : Nat → AIMessage) (s : OrchState) : OrchState :=
  match s.node with
  | GraphNode.retrieveNode => { s with node := GraphNode.assistantNode }
  | GraphNode.assistantNode =>
    let m := model s.generateSteps
    { node :=
        match tools_condition (s.aiMessages ++ [m]) with
        | RouteTarget.tools => GraphNode.toolsNode
        | RouteTarget.done => GraphNode.doneNode,
      aiMessages := s.aiMessages ++ [m],
      generateSteps := s.generateSteps + 1,
      toolRounds := s.toolRounds }
  | GraphNode.toolsNode =>
    { s with node := GraphNode.assistantNode, toolRounds := s.toolRounds + 1 }
  | GraphNode.doneNode => s

/-- The state a user turn starts in (START edge into `retrieve`). -/
def orchInit : OrchState := ⟨GraphNode.retrieveNode, [], 0, 0⟩

/-- Run the graph for `n` steps from the start of a turn. -/
def orchRun (model : Nat → AIMessage) : Nat → OrchState
  | 0 => orchInit
  | n + 1 => orchStep model (orchRun model n)

/-! ### UI turn loop (app.py 57-95) -/

/-- The events `stream_tokens` consumes from the orchestrator's event
stream. -/
inductive StreamEvent where
  | chatModelStream (chunk : String)
  | toolEnd (name : String) (output : String)
  | otherEvent
deriving Repr, DecidableEq

/-- The two tool names whose `on_tool_end` output is captured as
`current_img_path` (app.py 73-76). -/
def plotToolNames : List String :=
  ["update_analog_sensor_plot_for_user", "update_digital_sensor_plot_for_user"]

/-- Embeds the `on_tool_end` branch of `stream_tokens` (app.py 72-77): each
plot-tool completion overwrites `current_img_path`; other events leave it
unchanged. -/
def updateImgPath (current : Option String) (e : StreamEvent) : Option String :=
  match e with
  | StreamEvent.toolEnd name output =>
    if name ∈ plotToolNames then some output else current
  | _ => current

/-- The text the turn streams to the user: concatenation of the
`on_chat_model_stream` chunks in arrival order (app.py 69-70, 84). -/
def streamedText (events : List StreamEvent) : String :=
  String.join (events.filterMap fun e =>
    match e with
    | StreamEvent.chatModelStream c => some c
    | _ => none)

/-- One entry of `st.session_state.messages`. -/
structure DisplayMessage where
  role : String
  content : String
  isImage : Bool
deriving Repr, DecidableEq

/-- Embeds one user turn of app.py (57-95): append the user message, stream
and append the assistant text, track the latest plot-tool output as
`current_img_path` (reset to `None` at the start of the turn, app.py 80), and
append one image message after the stream exactly when `current_img_path` is
truthy (Python: neither `None` nor the empty string). -/
def runUserTurn (history : List DisplayMessage) (prompt : String)
    (events : List StreamEvent) : List DisplayMessage :=
  let base := history ++
    [⟨"user", prompt, false⟩, ⟨"assistant", streamedText events, false⟩]
  match events.foldl updateImgPath none with
  | some p => if p.isEmpty then base else base ++ [⟨"assistant", p, true⟩]
  | none => base

/-- Number of image messages in a displayed conversation. -/
def countImages (msgs : List DisplayMessage) : Nat :=
  (msgs.filter fun m => m.isImage).length

/-! ## Theorems -/

/-- C1: the spec requires that a retrieval step finding zero documents
degrades to an empty context and the turn proceeds without augmentation; the
code instead fails: `_write_context_to_file` reads `context[0].page_content`,
which raises `IndexError` on an empty retrieval result, aborting the
`retrieve` step for every user message. -/
theorem C1_retrieve_empty_index_raises : ∀ message : HumanMessage,
    retrieve message [] = Except.error "IndexError: list index out of range" :=
  fun _ => rfl

/-- C2: `query_anomalies` returns the records of the window whose duration
exceeds 300 seconds, ordered ascending by `anomaly_start_ts` — and on the
spec's scenario store (one 400-second anomaly starting 2022-02-10 13:00:00 and
one 200-second anomaly in the same window) the window 2022-02-10 00:00:00 to
2022-02-11 00:00:00 yields exactly the 400-second record. -/
theorem C2_query_anomalies_filter_and_order :
    (∀ start_ts end_ts (db : List AnomalyRow),
      List.Sorted recLe (query_anomalies start_ts end_ts db) ∧
      (∀ rec : AnomalyRecord, rec ∈ query_anomalies start_ts end_ts db ↔
        ∃ row, row ∈ db ∧ 300 < row.event_duration_in_secs ∧
          ((textLe start_ts row.start_ts = true ∧ textLe row.start_ts end_ts = true) ∨
           (textLe start_ts row.end_ts = true ∧ textLe row.end_ts end_ts = true)) ∧
          toAnomalyRecord row = rec)) ∧
    query_anomalies "2022-02-10 00:00:00" "2022-02-11 00:00:00" [anomRow400, anomRow200] =
      [toAnomalyRecord anomRow400] := by
  refine ⟨fun start_ts end_ts db => ⟨List.sorted_insertionSort recLe _, fun rec => ?_⟩, by decide⟩
  rw [mem_query_anomalies]
  simp only [anomalyWhere, Bool.and_eq_true, Bool.or_eq_true, decide_eq_true_eq]
  constructor
  · rintro ⟨row, hrow, ⟨hdur, hwin⟩, heq⟩
    exact ⟨row, hrow, by omega, hwin, heq⟩
  · rintro ⟨row, hrow, hdur, hwin, heq⟩
    exact ⟨row, hrow, ⟨by omega, hwin⟩, heq⟩

/-- C10: the WHERE clause selects a row exactly when its duration exceeds 300
seconds and its start or its end lies inside the window; hence a store whose
anomalies all strictly contain the window yields an empty result, while a row
straddling a single boundary (its end inside the window, or its start inside
the window) is returned whenever its duration passes the floor. -/
theorem C10_window_overlap_semantics :
    (∀ start_ts end_ts (row : AnomalyRow),
      anomalyWhere start_ts end_ts row = true ↔
        (300 < row.event_duration_in_secs ∧
          ((textLe start_ts row.start_ts = true ∧ textLe row.start_ts end_ts = true) ∨
           (textLe start_ts row.end_ts = true ∧ textLe row.end_ts end_ts = true)))) ∧
    (∀ start_ts end_ts (db : List AnomalyRow),
      (∀ row ∈ db, textLt row.start_ts start_ts = true ∧ textLt end_ts row.end_ts = true) →
      query_anomalies start_ts end_ts db = []) ∧
    (∀ start_ts end_ts (db : List AnomalyRow) (row : AnomalyRow), row ∈ db →
      300 < row.event_duration_in_secs →
      textLe start_ts row.end_ts = true → textLe row.end_ts end_ts = true →
      toAnomalyRecord row ∈ query_anomalies start_ts end_ts db) ∧
    (∀ start_ts end_ts (db : List AnomalyRow) (row : AnomalyRow), row ∈ db →
      300 < row.event_duration_in_secs →
      textLe start_ts row.start_ts = true → textLe row.start_ts end_ts = true →
      toAnomalyRecord row ∈ query_anomalies start_ts end_ts db) := by
  refine ⟨fun start_ts end_ts row => ?_, fun start_ts end_ts db h => ?_,
    fun start_ts end_ts db row hrow hdur h1 h2 => ?_,
    fun start_ts end_ts db row hrow hdur h1 h2 => ?_⟩
  · simp only [anomalyWhere, Bool.and_eq_true, Bool.or_eq_true, decide_eq_true_eq]
    constructor
    · rintro ⟨hdur, hwin⟩; exact ⟨by omega, hwin⟩
    · rintro ⟨hdur, hwin⟩; exact ⟨by omega, hwin⟩
  · have hfilter : db.filter (anomalyWhere start_ts end_ts) = [] := by
      rw [List.filter_eq_nil_iff]
      intro row hrow
      obtain ⟨hs, he⟩ := h row hrow
      simp [anomalyWhere, textLe, hs, he]
    simp [query_anomalies, hfilter]
  · exact mem_query_anomalies.mpr ⟨row, hrow,
      by simp only [anomalyWhere, Bool.and_eq_true, Bool.or_eq_true, decide_eq_true_eq]
         exact ⟨by omega, Or.inr ⟨h1, h2⟩⟩, rfl⟩
  · exact mem_query_anomalies.mpr ⟨row, hrow,
      by simp only [anomalyWhere, Bool.and_eq_true, Bool.or_eq_true, decide_eq_true_eq]
         exact ⟨by omega, Or.inl ⟨h1, h2⟩⟩, rfl⟩

/-- Demo row: a 259200-second anomaly strictly containing the scenario
window (starts the day before, ends the day after). -/
def anomRowContaining : AnomalyRow :=
  ⟨103, "2022-02-09 00:00:00", "2022-02-12 00:00:00", 259200⟩

/-- Demo row: a 400-second anomaly straddling the window's left boundary
(starts before 2022-02-10 00:00:00, ends inside the window). -/
def anomRowStraddle : AnomalyRow :=
  ⟨104, "2022-02-09 23:57:00", "2022-02-10 00:03:40", 400⟩

/-- Witness for C10: a concrete store whose only anomaly strictly contains
the window yields an empty result, and a concrete boundary-straddling anomaly
is returned. -/
theorem C10_window_overlap_semantics_witness :
    query_anomalies "2022-02-10 00:00:00" "2022-02-11 00:00:00" [anomRowContaining] = [] ∧
    toAnomalyRecord anomRowStraddle ∈
      query_anomalies "2022-02-10 00:00:00" "2022-02-11 00:00:00" [anomRowStraddle] ∧
    toAnomalyRecord anomRow400 ∈
      query_anomalies "2022-02-10 00:00:00" "2022-02-11 00:00:00" [anomRow400] :=
  ⟨C10_window_overlap_semantics.2.1 "2022-02-10 00:00:00" "2022-02-11 00:00:00"
      [anomRowContaining] (by decide),
   C10_window_overlap_semantics.2.2.1 "2022-02-10 00:00:00" "2022-02-11 00:00:00"
      [anomRowStraddle] anomRowStraddle (by decide) (by decide) (by decide) (by decide),
   C10_window_overlap_semantics.2.2.2 "2022-02-10 00:00:00" "2022-02-11 00:00:00"
      [anomRow400] anomRow400 (by decide) (by decide) (by decide) (by decide)⟩

/-- Demo row of `results_agg` inside the 2022-02-10 window. -/
def aggRow1 : ResultsAggRow := ⟨"2022-02-10 13:00:00", 1, 0, 1, 0, 1, 1, 0, 1⟩

/-- C3 counterexample: the mapping returned by
`query_analog_sensor_importances` is keyed by the SELECT aliases `tp2_pred`,
`tp3_pred`, ..., not by the bare sensor names the claim lists — at a concrete
store and window, `"tp2"` is a claimed key but not a key of the result. -/
theorem C3_counterexample_keys_have_pred_suffix :
    ¬ (∀ k, k ∈ (query_analog_sensor_importances "2022-02-10 00:00:00"
          "2022-02-11 00:00:00" [aggRow1]).map Prod.fst ↔ k ∈ analogSensorNames) := by
  intro h
  exact absurd ((h "tp2").mpr (by decide)) (by decide)

/-- C3 (amended): for every window the mapping's keys are exactly the 8
analog-sensor names suffixed with `_pred`, in SELECT order, and each key maps
to the SQL SUM of its sensor's out-of-range indicator column over the rows of
the window (NULL when no row falls in the window). -/
theorem C3_amended_pred_keys_and_sums :
    ∀ start_ts end_ts (results_agg : List ResultsAggRow),
    ((query_analog_sensor_importances start_ts end_ts results_agg).map Prod.fst =
        analogPredColumns) ∧
    (query_analog_sensor_importances start_ts end_ts results_agg =
      analogPredColumns.map fun c =>
        (c, sqlSum (analogColumnOf c)
              (whereTsBetween (fun r => r.ts) start_ts end_ts results_agg))) :=
  fun _ _ _ => ⟨rfl, rfl⟩

/-- C9: `query_analog_sensor_importances` is a SELECT-only read — one call
leaves the store unchanged, so a second call with identical arguments against
the resulting store yields the identical output mapping. -/
theorem C9_rerun_identical_output : ∀ start_ts end_ts (db : Store),
    (run_query_analog_sensor_importances start_ts end_ts db).2 = db ∧
    (run_query_analog_sensor_importances start_ts end_ts
        (run_query_analog_sensor_importances start_ts end_ts db).2).1 =
      (run_query_analog_sensor_importances start_ts end_ts db).1 :=
  fun _ _ _ => ⟨rfl, rfl⟩

/-- Demo row of `train_data` (February 2022, inside the store's range). -/
def tdRowFeb : TrainDataRow := ⟨"2022-02-01 12:00:00", 1, 0, 1, 0, 0, 1, 0, 1⟩

/-- C7 counterexample: with `start_ts = 2023-01-01 00:00:00` (outside the
valid range) the digital-activations tool neither returns an empty result set
nor an error string — SQL aggregates without GROUP BY always yield one row, so
it returns the full 8-key mapping with every value NULL. -/
theorem C7_counterexample_null_row_not_empty :
    ¬ (query_digital_sensor_activations_tool "2023-01-01 00:00:00" "2023-12-31 00:00:00"
          ⟨[], [], [tdRowFeb]⟩ = ToolOutcome.result [] ∨
       ∃ msg, query_digital_sensor_activations_tool "2023-01-01 00:00:00" "2023-12-31 00:00:00"
          ⟨[], [], [tdRowFeb]⟩ = ToolOutcome.errorText msg) := by
  intro h
  rcases h with h | ⟨msg, h⟩
  · revert h; decide
  · exact ToolOutcome.noConfusion h

/-- C7 (amended): for every query tool and every `start_ts` outside
[2022-01-01, 2022-06-02], the call completes normally — no store exception, no
aborted turn: each tool returns its query result as a tool result; when the
window matches no store rows, `query_anomalies` returns the empty list and the
two aggregate tools return their fixed 8-key mapping with every value NULL. -/
theorem C7_amended_out_of_range_degrades :
    ∀ start_ts end_ts (db : Store), outsideValidRange start_ts →
    (query_anomalies_tool start_ts end_ts db =
       ToolOutcome.result (query_anomalies start_ts end_ts db.anomalies_consolidated)) ∧
    (query_analog_sensor_importances_tool start_ts end_ts db =
       ToolOutcome.result (query_analog_sensor_importances start_ts end_ts db.results_agg)) ∧
    (query_digital_sensor_activations_tool start_ts end_ts db =
       ToolOutcome.result (query_digital_sensor_activations start_ts end_ts db.train_data)) ∧
    ((∀ row ∈ db.anomalies_consolidated, anomalyWhere start_ts end_ts row = false) →
       query_anomalies start_ts end_ts db.anomalies_consolidated = []) ∧
    (whereTsBetween (fun r => r.ts) start_ts end_ts db.train_data = [] →
       ∀ p ∈ query_digital_sensor_activations start_ts end_ts db.train_data, p.2 = none) ∧
    (whereTsBetween (fun r => r.ts) start_ts end_ts db.results_agg = [] →
       ∀ p ∈ query_analog_sensor_importances start_ts end_ts db.results_agg, p.2 = none) := by
  intro start_ts end_ts db _
  refine ⟨rfl, rfl, rfl, ?_, ?_, ?_⟩
  · intro h
    have hfilter : db.anomalies_consolidated.filter (anomalyWhere start_ts end_ts) = [] := by
      rw [List.filter_eq_nil_iff]
      intro row hrow
      simp [h row hrow]
    simp [query_anomalies, hfilter]
  · intro h p hp
    simp only [query_digital_sensor_activations, h, digitalSumRow, sqlSum,
      List.isEmpty_nil, if_true, List.mem_cons, List.not_mem_nil, or_false] at hp
    rcases hp with rfl|rfl|rfl|rfl|rfl|rfl|rfl|rfl <;> rfl
  · intro h p hp
    simp only [query_analog_sensor_importances, h, analogSumRow, sqlSum,
      List.isEmpty_nil, if_true, List.mem_cons, List.not_mem_nil, or_false] at hp
    rcases hp with rfl|rfl|rfl|rfl|rfl|rfl|rfl|rfl <;> rfl

/-- A concrete store with one row per table, all inside the valid range. -/
def store7 : Store := ⟨[anomRow400], [aggRow1], [tdRowFeb]⟩

/-- Witness for C7 (amended): at `start_ts = 2023-01-01 00:00:00` over a
concrete store, the anomalies query is empty and the digital-activations
mapping is all-NULL. -/
theorem C7_amended_out_of_range_degrades_witness :
    query_anomalies "2023-01-01 00:00:00" "2023-12-31 00:00:00"
      store7.anomalies_consolidated = [] ∧
    (∀ p ∈ query_digital_sensor_activations "2023-01-01 00:00:00" "2023-12-31 00:00:00"
      store7.train_data, p.2 = none) :=
  ⟨(C7_amended_out_of_range_degrades "2023-01-01 00:00:00" "2023-12-31 00:00:00" store7
      (Or.inr (by decide))).2.2.2.1 (by decide),
   (C7_amended_out_of_range_degrades "2023-01-01 00:00:00" "2023-12-31 00:00:00" store7
      (Or.inr (by decide))).2.2.2.2.1 (by decide)⟩

/-- Demo row of `train_data_processed` (March 2022). -/
def tdpRowMar : TrainDataProcessedRow := ⟨"2022-03-01 12:00:00", [("tp2", 7), ("comp", 1)], 0⟩

/-- C4: the spec requires a plot tool whose window matches no rows to return
an explanatory tool result without attempting to render; neither plot helper
guards the empty frame — both hand it straight to `DataFrame.plot`, which
raises `TypeError`, so at a window matching no store rows the tools raise
instead of returning an explanatory result. -/
theorem C4_empty_window_plot_raises :
    update_analog_sensor_plot_for_user "tp2" "2022-01-01 00:00:00" "2022-01-01 00:00:01"
        [tdpRowMar] [] "plot-a" = Except.error "TypeError: no numeric data to plot" ∧
    update_digital_sensor_plot_for_user "comp" "2022-01-01 00:00:00" "2022-01-01 00:00:01"
        [tdpRowMar] "plot-b" = Except.error "TypeError: no numeric data to plot" :=
  ⟨rfl, rfl⟩

/-- C5: routing after the `assistant` node is a pure function of the latest
assistant message: any two conversation states sharing the latest assistant
message route identically; zero tool-call requests route to the terminal
state, one or more route to tool execution. -/
theorem C5_routing_pure_function :
    (∀ (pre pre2 : List AIMessage) (m : AIMessage),
      tools_condition (pre ++ [m]) = tools_condition (pre2 ++ [m])) ∧
    (∀ (pre : List AIMessage) (m : AIMessage),
      m.tool_calls = [] → tools_condition (pre ++ [m]) = RouteTarget.done) ∧
    (∀ (pre : List AIMessage) (m : AIMessage),
      m.tool_calls ≠ [] → tools_condition (pre ++ [m]) = RouteTarget.tools) := by
  refine ⟨fun pre pre2 m => ?_, fun pre m h => ?_, fun pre m h => ?_⟩
  · simp [tools_condition, List.getLast?_concat]
  · simp [tools_condition, List.getLast?_concat, h]
  · simp [tools_condition, List.getLast?_concat, List.isEmpty_iff, h]

/-- A tool-free assistant message. -/
def aiMsgPlain : AIMessage := ⟨"All good.", []⟩

/-- An assistant message carrying one tool-call request. -/
def aiMsgToolReq : AIMessage := ⟨"", [⟨"query_anomalies", "call-1"⟩]⟩

/-- Witness for C5: concrete latest assistant messages route to the terminal
state and to tool execution respectively. -/
theorem C5_routing_pure_function_witness :
    tools_condition ([] ++ [aiMsgPlain]) = RouteTarget.done ∧
    tools_condition ([] ++ [aiMsgToolReq]) = RouteTarget.tools :=
  ⟨C5_routing_pure_function.2.1 [] aiMsgPlain rfl,
   C5_routing_pure_function.2.2 [] aiMsgToolReq (by decide)⟩

/-- C8: when the model's first response carries zero tool-call requests, the
turn reaches the terminal node after exactly one generate step and zero tool
rounds, and stays there. -/
theorem C8_no_tools_single_generate :
    ∀ (model : Nat → AIMessage), (model 0).tool_calls = [] →
    ∀ n, orchRun model (n + 2) = ⟨GraphNode.doneNode, [model 0], 1, 0⟩ := by
  intro model h n
  induction n with
  | zero =>
    show orchStep model (orchStep model orchInit) = _
    simp [orchStep, orchInit, tools_condition, h]
  | succ k ih =>
    show orchStep model (orchRun model (k + 2)) = _
    rw [ih]
    rfl

/-- A model oracle that never requests tools. -/
def modelNoTools : Nat → AIMessage := fun _ => ⟨"The line was healthy today.", []⟩

/-- Witness for C8: the tool-free oracle finishes in the terminal state after
one generate step. -/
theorem C8_no_tools_single_generate_witness :
    orchRun modelNoTools 2 = ⟨GraphNode.doneNode, [modelNoTools 0], 1, 0⟩ :=
  C8_no_tools_single_generate modelNoTools rfl 0

/-- The spec's scenario event stream: one text chunk, then completions of a
plot tool and of `query_anomalies` requested in the same round. -/
def demoEvents : List StreamEvent :=
  [StreamEvent.chatModelStream "Here is the plot.",
   StreamEvent.toolEnd "update_analog_sensor_plot_for_user" "./imgs/plot-1.png",
   StreamEvent.toolEnd "query_anomalies" "[]"]

/-- C6: a user turn appends at most one image message to the displayed
conversation, whatever the event stream; on the scenario stream (two tool
completions, one of them a plot) the turn appends exactly one image message,
carrying the plot path. -/
theorem C6_at_most_one_image_per_turn :
    (∀ history prompt events,
      countImages (runUserTurn history prompt events) ≤ countImages history + 1) ∧
    (demoEvents.countP fun e => match e with
        | StreamEvent.toolEnd _ _ => true
        | _ => false) = 2 ∧
    runUserTurn [] "Plot tp2 from 2022-02-10 00:00:00 to 2022-02-11 00:00:00" demoEvents =
      [⟨"user", "Plot tp2 from 2022-02-10 00:00:00 to 2022-02-11 00:00:00", false⟩,
       ⟨"assistant", "Here is the plot.", false⟩,
       ⟨"assistant", "./imgs/plot-1.png", true⟩] ∧
    countImages (runUserTurn [] "Plot tp2 from 2022-02-10 00:00:00 to 2022-02-11 00:00:00"
      demoEvents) = 1 := by
  refine ⟨fun history prompt events => ?_, by decide, by decide, by decide⟩
  have happ : ∀ a b, countImages (a ++ b) = countImages a + countImages b := by
    intro a b
    simp [countImages, List.filter_append]
  rcases hfold : events.foldl updateImgPath none with _ | p
  · simp [runUserTurn, hfold, happ, countImages]
  · by_cases hp : p.isEmpty <;> simp [runUserTurn, hfold, hp, happ, countImages]

end Practicum
